import Mathlib

/-!
Verification of the reactive workspace coordination layer of the rust-katas
frontend (SolidJS): route/fragment binding (`state.js`, sidebar `selectKata`),
the kata-detail resource, and the `Workspace` component of
`frontend/src/pages/landing.jsx` (code buffer, run lifecycle, split-pane
layout, maximize toggle).

JS strings are modelled as Lean `String` (the address fragment as `List Char`,
to reason about the hash parser character by character), JS numbers in the
layout math as exact rationals `ℚ`, and possibly-absent JS values as `Option`.
Asynchronous behaviour is modelled as an explicit event-step machine: each
event is one synchronous callback run by the (single-threaded) event loop.
-/

set_option autoImplicit false

namespace RustKatas

/-! ### Data model (§3 of the spec, `fetchKata` JSON shape) -/

/-- A kata detail as fetched by `fetchKata(id)` (landing.jsx `Workspace`).
`broken_code` / `correct_code` are `Option String` so that an absent field on
the JS object (`undefined`) is representable; a well-formed API response has
them present. -/
structure KataDetail where
  id : String
  title : String
  description : String
  broken_code : Option String
  correct_code : Option String
  explanation : String
  compiler_error_interpretation : String
deriving DecidableEq, Repr

/-- The run-code collaborator's success payload
(`{ stdout, stderr, success, execution_time_ms }`). -/
structure RunResult where
  stdout : String
  stderr : String
  success : Bool
  execution_time_ms : Nat
deriving DecidableEq, Repr

/-- What `setResult` stores: either the collaborator's payload verbatim
(no `error` field, i.e. `error = none`) or the reshaped failure from the
`catch` branch of `handleRun`, which adds `error: e.message`. -/
structure StoredResult where
  stdout : String
  stderr : String
  success : Bool
  execution_time_ms : Nat
  error : Option String
deriving DecidableEq, Repr

/-- A collaborator result stored verbatim carries no `error` field. -/
def RunResult.toStored (r : RunResult) : StoredResult :=
  ⟨r.stdout, r.stderr, r.success, r.execution_time_ms, none⟩

/-- The `catch` branch of `handleRun`:
`{ stdout: "", stderr: "", success: false, execution_time_ms: 0, error: e.message }`. -/
def shapeFailure (msg : String) : StoredResult :=
  ⟨"", "", false, 0, some msg⟩

/-- How a settled run collaborator call is stored: `setResult(res)` on
fulfillment, the reshaped failure on rejection. -/
def settleResult : Except String RunResult → StoredResult
  | .ok r => r.toStored
  | .error msg => shapeFailure msg

/-- The two workspace panes (`maximized` signal values `'code' | 'output'`). -/
inductive Panel | code | output
deriving DecidableEq, Repr

/-- The `activeView` signal values `"broken" | "correct"` (besides `null`). -/
inductive CodeView | broken | correct
deriving DecidableEq, Repr

/-- The spec's `RunState` (§3), derived below from the `running` and `result`
signals of the `Workspace` component. -/
inductive RunState
  | idle
  | running
  | completed (r : StoredResult)
  | failed (r : StoredResult)
deriving DecidableEq, Repr

/-! ### RouteKataBinding (`state.js` + sidebar `selectKata`)

The address fragment is a `List Char`; `window.location.hash` reads back
exactly what was assigned. -/

/-- A character matched by `.` in a JS regex without the `s` flag: any
character except the four line terminators. -/
def isRegexDot (c : Char) : Bool :=
  c ≠ '\n' && c ≠ '\r' && c.toNat ≠ 0x2028 && c.toNat ≠ 0x2029

/-- `getKataIdFromHash` (state.js): match the hash against `^#\/katas\/(.+)$`
and return the captured group, else `null`. `(.+)` is one or more
non-line-terminator characters reaching the end of the string. -/
def getKataIdFromHash (hash : List Char) : Option (List Char) :=
  match hash with
  | '#' :: '/' :: 'k' :: 'a' :: 't' :: 'a' :: 's' :: '/' :: rest =>
    if rest.isEmpty then none
    else if rest.all isRegexDot then some rest else none
  | _ => none

/-- The fragment written by `selectKata`: `` `#/katas/${id}` ``. -/
def hashFor (id : List Char) : List Char :=
  '#' :: '/' :: 'k' :: 'a' :: 't' :: 'a' :: 's' :: '/' :: id

/-- The module-level navigation state of `state.js`: the address fragment and
the `currentKataId` signal. -/
structure RouteState where
  hash : List Char
  currentKataId : Option (List Char)
deriving DecidableEq, Repr

/-- `selectKata(id)` (sidebar): `setCurrentKataId(id)` then
`` window.location.hash = `#/katas/${id}` ``. -/
def selectKata (id : List Char) (_s : RouteState) : RouteState :=
  { currentKataId := some id, hash := hashFor id }

/-- The `hashchange` listener (state.js): parse the fragment and update
`currentKataId` only if the parsed id differs; the fragment is never written. -/
def onHashChange (s : RouteState) : RouteState :=
  let id := getKataIdFromHash s.hash
  if id ≠ s.currentKataId then { s with currentKataId := id } else s

/-- `selectKata` followed by the `hashchange` notification the browser fires
exactly when the fragment value actually changed. -/
def selectKataNotified (id : List Char) (s : RouteState) : RouteState :=
  let s1 := selectKata id s
  if s1.hash = s.hash then s1 else onHashChange s1

/-! ### KataResource (detail fetch keyed by `currentKataId`) -/

/-- Modelled from the spec: the stale-write protection of the detail resource.
`Workspace` (landing.jsx) declares
`createResource(currentKataId, async (id) => fetchKata(id))`; the resolution
protocol — "a detail-fetch result is applied only if its requested id still
equals `currentKataId` at resolution time, otherwise discarded silently" —
lives inside the external reactive library (`solid-js`), whose source is not
part of this repository. -/
structure ResourceState where
  currentKataId : Option String
  detail : Option KataDetail
deriving DecidableEq, Repr

/-- Events seen by the detail resource: a navigation (`currentKataId` set to a
new id, which issues a fetch for it) and the resolution of a previously issued
fetch, tagged with the id it was requested for. -/
inductive ResourceEvent
  | select (id : String)
  | resolve (requestedId : String) (d : KataDetail)

/-- Modelled from the spec: one resource transition. A resolution is applied
only when its requested id still equals `currentKataId`; otherwise the state
is returned unchanged (the result is discarded silently). -/
def resourceStep (s : ResourceState) : ResourceEvent → ResourceState
  | .select id => { s with currentKataId := some id }
  | .resolve rid d =>
    if s.currentKataId = some rid then { s with detail := some d } else s

/-- Resource state before any navigation: no id selected, no detail applied. -/
def resourceInit : ResourceState := ⟨none, none⟩

/-- Run the resource over a list of events. -/
def resourceRun (s : ResourceState) (evs : List ResourceEvent) : ResourceState :=
  evs.foldl resourceStep s

/-- All states visited while running the resource (initial state included). -/
def resourceStates (s : ResourceState) : List ResourceEvent → List ResourceState
  | [] => [s]
  | e :: es => s :: resourceStates (resourceStep s e) es

/-! ### WorkspaceController + SplitPaneLayout (`Workspace` in landing.jsx)

One state record holding every signal and mutable local of the component,
plus two history fields recording the interaction with the run collaborator:
`inflight` counts outstanding `runCode` calls and `sentCodes` logs the code
of every request that actually reached it. -/

structure WorkspaceState where
  kata : Option KataDetail
  prevKataId : Option String
  code : String
  result : Option StoredResult
  running : Bool
  maximized : Option Panel
  splitRatio : ℚ
  activeView : Option CodeView
  showExplanation : Bool
  showInterpretation : Bool
  isDragging : Bool
  inflight : Nat
  sentCodes : List String
deriving DecidableEq, Repr

/-- Initial signal values of `Workspace`: `code ""`, `result null`,
`running false`, `maximized null`, `splitRatio 0.5`, `activeView "broken"`,
both spoilers closed, `prevKataId = null`, not dragging, no run issued. -/
def initWorkspace : WorkspaceState :=
  { kata := none, prevKataId := none, code := "", result := none,
    running := false, maximized := none, splitRatio := 1/2,
    activeView := some .broken, showExplanation := false,
    showInterpretation := false, isDragging := false,
    inflight := 0, sentCodes := [] }

/-- JS `x || ""` over a possibly-absent string (`kata()?.field || ""`):
`undefined` and `""` are both falsy and yield `""`. -/
def jsOrEmpty : Option String → String
  | none => ""
  | some s => s

/-- `loadKata` (landing.jsx): if a kata is loaded and its id differs from
`prevKataId`, reset the workspace — `prevKataId := k.id`,
`setCode(k.broken_code)`, `setActiveView("broken")`, `setResult(null)`,
`setShowExplanation(false)`, `setShowInterpretation(false)`. The `running`
flag is not touched. (`k.broken_code` is a string on every well-formed API
response; `.getD ""` covers the untyped absent case.) -/
def loadKata (s : WorkspaceState) : WorkspaceState :=
  match s.kata with
  | some k =>
    if s.prevKataId = some k.id then s
    else { s with prevKataId := some k.id, code := k.broken_code.getD "",
                  activeView := some .broken, result := none,
                  showExplanation := false, showInterpretation := false }
  | none => s

/-- `onCodeChange` (CodePanel prop): `setCode(val); setActiveView(null)`. -/
def onCodeChange (text : String) (s : WorkspaceState) : WorkspaceState :=
  { s with code := text, activeView := none }

/-- `onLoadBroken`: `setCode(kata()?.broken_code || "")`;
`setActiveView("broken")`; `setResult(null)`. -/
def onLoadBroken (s : WorkspaceState) : WorkspaceState :=
  { s with code := jsOrEmpty (s.kata.bind KataDetail.broken_code),
           activeView := some .broken, result := none }

/-- `onLoadCorrect`: `setCode(kata()?.correct_code || "")`;
`setActiveView("correct")`; `setResult(null)`. -/
def onLoadCorrect (s : WorkspaceState) : WorkspaceState :=
  { s with code := jsOrEmpty (s.kata.bind KataDetail.correct_code),
           activeView := some .correct, result := none }

/-- The synchronous part of `handleRun`, up to the `await`:
`if (running()) return;` else `setRunning(true); setResult(null)` and issue
`runCode(code())` — recorded in `inflight`/`sentCodes`. -/
def handleRunStart (s : WorkspaceState) : WorkspaceState :=
  if s.running then s
  else { s with running := true, result := none,
                inflight := s.inflight + 1,
                sentCodes := s.sentCodes ++ [s.code] }

/-- The continuation of `handleRun` once its `runCode` call settles:
`setResult(res)` on fulfillment, the reshaped failure on rejection, and
`setRunning(false)` in the `finally` block. A settle event with no
outstanding call corresponds to no real promise and is a no-op. -/
def handleRunSettle (o : Except String RunResult) (s : WorkspaceState) : WorkspaceState :=
  if s.inflight = 0 then s
  else { s with result := some (settleResult o), running := false,
                inflight := s.inflight - 1 }

/-- `onMouseDown` on the divider: `isDragging = true` (cursor styling not
modelled). -/
def onMouseDown (s : WorkspaceState) : WorkspaceState :=
  { s with isDragging := true }

/-- `Math.max(0.2, Math.min(0.8, ratio))`. -/
def clampRatio (x : ℚ) : ℚ := max (1/5) (min (4/5) x)

/-- `onMouseMove`: `if (!isDragging || !containerRef) return;` else set
`splitRatio` to the clamped fractional pointer position
`(e.clientX - rect.left) / rect.width`. -/
def onMouseMove (hasContainer : Bool) (left width clientX : ℚ)
    (s : WorkspaceState) : WorkspaceState :=
  if s.isDragging && hasContainer then
    { s with splitRatio := clampRatio ((clientX - left) / width) }
  else s

/-- `onMouseUp`: if dragging, stop (styling restore not modelled). -/
def onMouseUp (s : WorkspaceState) : WorkspaceState :=
  if s.isDragging then { s with isDragging := false } else s

/-- `toggleMaximize(panel)`: `cur === panel ? null : panel`. -/
def toggleMaximize (p : Panel) (cur : Option Panel) : Option Panel :=
  if cur = some p then none else some p

/-- One event-loop callback of the `Workspace` component. `kataResolved`
is the detail resource delivering a new value, which re-runs the tracked
`loadKata` effect. -/
inductive WsEvent
  | kataResolved (k : Option KataDetail)
  | edit (text : String)
  | loadBrokenClick
  | loadCorrectClick
  | runClick
  | runReturn (o : Except String RunResult)
  | dragStart
  | dragMove (hasContainer : Bool) (left width clientX : ℚ)
  | dragEnd
  | maxClick (p : Panel)

/-- Dispatch one event to its handler. -/
def step (s : WorkspaceState) : WsEvent → WorkspaceState
  | .kataResolved k => loadKata { s with kata := k }
  | .edit text => onCodeChange text s
  | .loadBrokenClick => onLoadBroken s
  | .loadCorrectClick => onLoadCorrect s
  | .runClick => handleRunStart s
  | .runReturn o => handleRunSettle o s
  | .dragStart => onMouseDown s
  | .dragMove hc l w x => onMouseMove hc l w x s
  | .dragEnd => onMouseUp s
  | .maxClick p => { s with maximized := toggleMaximize p s.maximized }

/-- Run the workspace over a list of events. -/
def runEvents (s : WorkspaceState) (evs : List WsEvent) : WorkspaceState :=
  evs.foldl step s

/-- All states visited while running the workspace (initial state included). -/
def wsStates (s : WorkspaceState) : List WsEvent → List WorkspaceState
  | [] => [s]
  | e :: es => s :: wsStates (step s e) es

/-- The spec's `RunState`, derived from the `running` and `result` signals:
`Running` while a run is in flight, else `Idle` with no stored result, else
`Completed`/`Failed` by the stored result's `success` flag. -/
def runStateOf (s : WorkspaceState) : RunState :=
  if s.running then .running
  else
    match s.result with
    | none => .idle
    | some r => if r.success then .completed r else .failed r

/-! ### Helper lemmas -/

/-- `loadKata` never touches the `running` flag. -/
lemma loadKata_running (s : WorkspaceState) : (loadKata s).running = s.running := by
  obtain ⟨ka, pv, cd, rs, rn, mx, sr, av, se, si, dr, fl, sc⟩ := s
  cases ka
  · rfl
  · unfold loadKata
    dsimp only
    split <;> rfl

/-- `loadKata` never touches the `inflight` counter. -/
lemma loadKata_inflight (s : WorkspaceState) : (loadKata s).inflight = s.inflight := by
  obtain ⟨ka, pv, cd, rs, rn, mx, sr, av, se, si, dr, fl, sc⟩ := s
  cases ka
  · rfl
  · unfold loadKata
    dsimp only
    split <;> rfl

/-- `loadKata` never touches the split ratio. -/
lemma loadKata_splitRatio (s : WorkspaceState) : (loadKata s).splitRatio = s.splitRatio := by
  obtain ⟨ka, pv, cd, rs, rn, mx, sr, av, se, si, dr, fl, sc⟩ := s
  cases ka
  · rfl
  · unfold loadKata
    dsimp only
    split <;> rfl

/-- The clamp of `onMouseMove` always lands in `[0.2, 0.8]`. -/
lemma clampRatio_mem (x : ℚ) : 1/5 ≤ clampRatio x ∧ clampRatio x ≤ 4/5 := by
  unfold clampRatio
  refine ⟨le_max_left _ _, max_le (by norm_num) (min_le_left _ _)⟩

/-- A property preserved by every `step` holds in every state visited by a
trace, from any starting state satisfying it. -/
lemma wsStates_invariant (P : WorkspaceState → Prop)
    (hstep : ∀ s e, P s → P (step s e)) :
    ∀ (evs : List WsEvent) (s : WorkspaceState), P s →
      ∀ st ∈ wsStates s evs, P st := by
  intro evs
  induction evs with
  | nil =>
    intro s hs st hst
    simp only [wsStates, List.mem_singleton] at hst
    exact hst ▸ hs
  | cons e es ih =>
    intro s hs st hst
    simp only [wsStates, List.mem_cons] at hst
    rcases hst with rfl | hst
    · exact hs
    · exact ih (step s e) (hstep s e hs) st hst

/-- Well-formedness of the run lifecycle: `inflight ≤ 1` and the `running`
flag tracks exactly whether one collaborator call is outstanding. -/
def runWF (s : WorkspaceState) : Prop :=
  s.inflight ≤ 1 ∧ (s.running = true ↔ s.inflight = 1)

/-- `runWF` is preserved by every workspace event. -/
lemma step_runWF : ∀ (s : WorkspaceState) (e : WsEvent), runWF s → runWF (step s e) := by
  intro s e h
  obtain ⟨h1, h2⟩ := h
  cases e with
  | kataResolved k =>
    refine ⟨?_, ?_⟩
    · rw [show step s (.kataResolved k) = loadKata { s with kata := k } from rfl,
        loadKata_inflight]
      exact h1
    · rw [show step s (.kataResolved k) = loadKata { s with kata := k } from rfl,
        loadKata_running, loadKata_inflight]
      exact h2
  | edit t => exact ⟨h1, h2⟩
  | loadBrokenClick => exact ⟨h1, h2⟩
  | loadCorrectClick => exact ⟨h1, h2⟩
  | runClick =>
    by_cases hr : s.running
    · have hs : step s .runClick = s := by simp [step, handleRunStart, hr]
      rw [hs]
      exact ⟨h1, h2⟩
    · have h0 : s.inflight = 0 := by
        rcases Nat.le_one_iff_eq_zero_or_eq_one.mp h1 with h | h
        · exact h
        · exact absurd (h2.mpr h) hr
      have hs : step s .runClick
          = { s with
                running := true, result := none, inflight := s.inflight + 1,
                sentCodes := s.sentCodes ++ [s.code] } := by
        simp [step, handleRunStart, hr]
      rw [hs]
      exact ⟨by simp [h0], by simp [h0]⟩
  | runReturn o =>
    by_cases h0 : s.inflight = 0
    · have hs : step s (.runReturn o) = s := by simp [step, handleRunSettle, h0]
      rw [hs]
      exact ⟨h1, h2⟩
    · have h1' : s.inflight = 1 := by omega
      have hs : step s (.runReturn o)
          = { s with
                result := some (settleResult o), running := false,
                inflight := s.inflight - 1 } := by
        simp [step, handleRunSettle, h0]
      rw [hs]
      exact ⟨by simp [h1'], by simp [h1']⟩
  | dragStart => exact ⟨h1, h2⟩
  | dragMove hc l w x =>
    simp only [step, onMouseMove]
    split
    · exact ⟨h1, h2⟩
    · exact ⟨h1, h2⟩
  | dragEnd =>
    simp only [step, onMouseUp]
    split
    · exact ⟨h1, h2⟩
    · exact ⟨h1, h2⟩
  | maxClick p => exact ⟨h1, h2⟩

/-- Any number of `runClick`s on a state whose run is in flight leave the
state untouched. -/
lemma runEvents_replicate_runClick (n : Nat) :
    ∀ s : WorkspaceState, s.running = true →
      runEvents s (List.replicate n .runClick) = s := by
  induction n with
  | zero => intro s _; rfl
  | succ m ih =>
    intro s hs
    have hstep : step s .runClick = s := by simp [step, handleRunStart, hs]
    calc runEvents s (List.replicate (m + 1) .runClick)
        = runEvents (step s .runClick) (List.replicate m .runClick) := by
          simp [runEvents, List.replicate_succ]
      _ = s := by rw [hstep]; exact ih s hs

/-- A single `step` keeps the split ratio inside `[0.2, 0.8]`. -/
lemma step_ratio_bounds (s : WorkspaceState) (e : WsEvent)
    (h : 1/5 ≤ s.splitRatio ∧ s.splitRatio ≤ 4/5) :
    1/5 ≤ (step s e).splitRatio ∧ (step s e).splitRatio ≤ 4/5 := by
  cases e with
  | kataResolved k =>
    rw [show step s (.kataResolved k) = loadKata { s with kata := k } from rfl,
      loadKata_splitRatio]
    exact h
  | edit t => exact h
  | loadBrokenClick => exact h
  | loadCorrectClick => exact h
  | runClick =>
    simp only [step, handleRunStart]
    split
    · exact h
    · exact h
  | runReturn o =>
    simp only [step, handleRunSettle]
    split
    · exact h
    · exact h
  | dragStart => exact h
  | dragMove hc l w x =>
    simp only [step, onMouseMove]
    split
    · exact clampRatio_mem _
    · exact h
  | dragEnd =>
    simp only [step, onMouseUp]
    split
    · exact h
    · exact h
  | maxClick p => exact h

/-! ### Claims -/

/-- C5: `editCode(text)` sets the code buffer to `text` and `activeView` to
`None` for every `text` — the handler performs no comparison, so this holds
even when `text` equals the stored broken or correct code — and a subsequent
`loadBroken()` resets the code buffer to exactly the stored `broken_code`
string, sets `activeView := Broken`, and discards the stale run result. -/
theorem C5_edit_then_loadBroken (s : WorkspaceState) (text : String)
    (k : KataDetail) (b : String) (hk : s.kata = some k)
    (hb : k.broken_code = some b) :
    (step s (.edit text)).code = text ∧
    (step s (.edit text)).activeView = none ∧
    (step (step s (.edit text)) .loadBrokenClick).code = b ∧
    (step (step s (.edit text)) .loadBrokenClick).activeView = some .broken ∧
    (step (step s (.edit text)) .loadBrokenClick).result = none := by
  simp [step, onCodeChange, onLoadBroken, hk, hb, jsOrEmpty]

/-- Witness for C5 at a concrete state and edit text, with the edited text
(`"bk"`) equal to the stored broken code. -/
theorem C5_edit_then_loadBroken_witness :
    (step { initWorkspace with
            kata := some ⟨"a", "t", "d", some "bk", some "ck", "e", "i"⟩ }
        (.edit "bk")).code = "bk" ∧
    (step { initWorkspace with
            kata := some ⟨"a", "t", "d", some "bk", some "ck", "e", "i"⟩ }
        (.edit "bk")).activeView = none ∧
    (step (step { initWorkspace with
            kata := some ⟨"a", "t", "d", some "bk", some "ck", "e", "i"⟩ }
        (.edit "bk")) .loadBrokenClick).code = "bk" ∧
    (step (step { initWorkspace with
            kata := some ⟨"a", "t", "d", some "bk", some "ck", "e", "i"⟩ }
        (.edit "bk")) .loadBrokenClick).activeView = some .broken ∧
    (step (step { initWorkspace with
            kata := some ⟨"a", "t", "d", some "bk", some "ck", "e", "i"⟩ }
        (.edit "bk")) .loadBrokenClick).result = none :=
  C5_edit_then_loadBroken _ "bk" ⟨"a", "t", "d", some "bk", some "ck", "e", "i"⟩
    "bk" rfl rfl

/-- C8 counterexample: with prior value `Output`, toggling the `Code` panel
twice in succession leaves `maximizedPanel = None`, not the prior `Output`. -/
theorem C8_counterexample :
    (step (step { initWorkspace with maximized := some .output }
        (.maxClick .code)) (.maxClick .code)).maximized ≠ some Panel.output := by
  decide

/-- C8 amended: toggling `Code` twice in succession returns `maximizedPanel`
to its prior value exactly when that prior value was not `Output`; from
`Output` the first toggle switches to `Code` and the second restores the
split view (`None`). -/
theorem C8_toggle_twice (s : WorkspaceState) :
    (step (step s (.maxClick .code)) (.maxClick .code)).maximized
      = if s.maximized = some .output then none else s.maximized := by
  have h : ∀ m : Option Panel,
      toggleMaximize .code (toggleMaximize .code m)
        = if m = some .output then none else m := by
    intro m
    rcases m with _ | p
    · simp [toggleMaximize]
    · cases p <;> simp [toggleMaximize]
  simp [step, h]

/-- C10: `loadBroken()` / `loadCorrect()` while no kata detail is loaded or
while the corresponding stored code string is absent (`kata()?.field` is
`undefined`, so `|| ""` applies): the code buffer becomes `""`, the view flag
is set, and the run result is cleared. The handlers are plain total
functions, so no error is raised. -/
theorem C10_load_without_detail (s : WorkspaceState)
    (hb : s.kata.bind KataDetail.broken_code = none)
    (hc : s.kata.bind KataDetail.correct_code = none) :
    step s .loadBrokenClick
        = { s with code := "", activeView := some CodeView.broken, result := none } ∧
    step s .loadCorrectClick
        = { s with code := "", activeView := some CodeView.correct, result := none } := by
  simp [step, onLoadBroken, onLoadCorrect, hb, hc, jsOrEmpty]

/-- Witness for C10 at the initial workspace state, where no kata is loaded. -/
theorem C10_load_without_detail_witness :
    step initWorkspace .loadBrokenClick
        = { initWorkspace with
              code := "", activeView := some CodeView.broken, result := none } ∧
    step initWorkspace .loadCorrectClick
        = { initWorkspace with
              code := "", activeView := some CodeView.correct, result := none } :=
  C10_load_without_detail initWorkspace rfl rfl

/-- C4: when the run collaborator rejects with message `msg`, the failure is
reshaped into the success result shape with `success = false`, `stdout = ""`,
`execution_time_ms = 0` and the message copied into `error`, and that shaped
value is stored as the run outcome. `handleRunSettle` is a total function
into `WorkspaceState`, so the failure never propagates past the handler. -/
theorem C4_failure_reshaped (s : WorkspaceState) (msg : String)
    (h : s.inflight ≠ 0) :
    (step s (.runReturn (.error msg))).result
        = some { stdout := "", stderr := "", success := false,
                 execution_time_ms := 0, error := some msg } ∧
    (step s (.runReturn (.error msg))).running = false := by
  simp [step, handleRunSettle, h, settleResult, shapeFailure]

/-- Witness for C4: a run is started from the initial state and its
collaborator call rejects with message `"boom"`. -/
theorem C4_failure_reshaped_witness :
    (step (step initWorkspace .runClick) (.runReturn (.error "boom"))).result
        = some { stdout := "", stderr := "", success := false,
                 execution_time_ms := 0, error := some "boom" } ∧
    (step (step initWorkspace .runClick) (.runReturn (.error "boom"))).running
        = false :=
  C4_failure_reshaped _ "boom" (by decide)

/-- C3 counterexample: a kata detail whose id differs from the last
initialized id resolves while a run is in flight; the reset fires, yet the
run state is `Running`, not `Idle` — `loadKata` clears only the `result`
signal and never touches the `running` flag. -/
theorem C3_counterexample :
    (step initWorkspace .runClick).prevKataId
        ≠ some (⟨"a", "t", "d", some "bk", some "ck", "e", "i"⟩ : KataDetail).id ∧
    runStateOf (step (step initWorkspace .runClick)
        (.kataResolved (some ⟨"a", "t", "d", some "bk", some "ck", "e", "i"⟩)))
      = RunState.running := by
  decide

/-- C3 amended: when the resolved detail's id differs from the internally
tracked previous id, the controller resets — the code buffer becomes the
detail's `broken_code`, `activeView := Broken`, the stored run result is
cleared, both disclosures close, and the previous-id field records the new
id; the run state becomes `Idle` exactly when no run is in flight, because
the reset clears the result signal but leaves the `running` flag untouched. -/
theorem C3_reset_on_new_id (s : WorkspaceState) (k : KataDetail) (b : String)
    (hprev : s.prevKataId ≠ some k.id) (hb : k.broken_code = some b) :
    (step s (.kataResolved (some k))).code = b ∧
    (step s (.kataResolved (some k))).activeView = some .broken ∧
    (step s (.kataResolved (some k))).result = none ∧
    (step s (.kataResolved (some k))).showExplanation = false ∧
    (step s (.kataResolved (some k))).showInterpretation = false ∧
    (step s (.kataResolved (some k))).prevKataId = some k.id ∧
    runStateOf (step s (.kataResolved (some k)))
      = if s.running then RunState.running else RunState.idle := by
  simp [step, loadKata, hprev, hb, runStateOf]

/-- Witness for C3: the first kata detail resolving into a fresh workspace,
with no run in flight, resets and lands in `Idle`. -/
theorem C3_reset_on_new_id_witness :
    (step initWorkspace
        (.kataResolved (some ⟨"a", "t", "d", some "bk", some "ck", "e", "i"⟩))).code
      = "bk" ∧
    (step initWorkspace
        (.kataResolved (some ⟨"a", "t", "d", some "bk", some "ck", "e", "i"⟩))).activeView
      = some .broken ∧
    (step initWorkspace
        (.kataResolved (some ⟨"a", "t", "d", some "bk", some "ck", "e", "i"⟩))).result
      = none ∧
    (step initWorkspace
        (.kataResolved (some ⟨"a", "t", "d", some "bk", some "ck", "e", "i"⟩))).showExplanation
      = false ∧
    (step initWorkspace
        (.kataResolved (some ⟨"a", "t", "d", some "bk", some "ck", "e", "i"⟩))).showInterpretation
      = false ∧
    (step initWorkspace
        (.kataResolved (some ⟨"a", "t", "d", some "bk", some "ck", "e", "i"⟩))).prevKataId
      = some (⟨"a", "t", "d", some "bk", some "ck", "e", "i"⟩ : KataDetail).id ∧
    runStateOf (step initWorkspace
        (.kataResolved (some ⟨"a", "t", "d", some "bk", some "ck", "e", "i"⟩)))
      = if initWorkspace.running then RunState.running else RunState.idle :=
  C3_reset_on_new_id initWorkspace ⟨"a", "t", "d", some "bk", some "ck", "e", "i"⟩
    "bk" (by decide) rfl

/-- C9: run outcomes are never staleness-checked against the kata id. A run
started before a (possibly different) kata resolves still stores its settled
outcome — fulfillment or reshaped failure — as the workspace's run result,
and the navigation-triggered reset does not clear the in-flight `running`
flag. `k` and `o` are arbitrary: no comparison with the current kata occurs
anywhere on the settle path. -/
theorem C9_run_not_staleness_checked (s : WorkspaceState)
    (k : Option KataDetail) (o : Except String RunResult)
    (hrun : s.running = false) (hin : s.inflight = 0) :
    (step (step s .runClick) (.kataResolved k)).running = true ∧
    (step (step (step s .runClick) (.kataResolved k)) (.runReturn o)).result
      = some (settleResult o) ∧
    (step (step (step s .runClick) (.kataResolved k)) (.runReturn o)).running
      = false := by
  have hr1 : (step s .runClick).running = true := by
    simp [step, handleRunStart, hrun]
  have hi1 : (step s .runClick).inflight = 1 := by
    simp [step, handleRunStart, hrun, hin]
  have hr2 : (step (step s .runClick) (.kataResolved k)).running = true := by
    rw [show step (step s .runClick) (.kataResolved k)
        = loadKata { step s .runClick with kata := k } from rfl,
      loadKata_running]
    exact hr1
  have hi2 : (step (step s .runClick) (.kataResolved k)).inflight = 1 := by
    rw [show step (step s .runClick) (.kataResolved k)
        = loadKata { step s .runClick with kata := k } from rfl,
      loadKata_inflight]
    exact hi1
  refine ⟨hr2, ?_, ?_⟩
  · show (handleRunSettle o (step (step s .runClick) (.kataResolved k))).result = _
    unfold handleRunSettle
    rw [hi2]
    simp
  · show (handleRunSettle o (step (step s .runClick) (.kataResolved k))).running = false
    unfold handleRunSettle
    rw [hi2]
    simp

/-- Witness for C9: a run started from the fresh workspace, a different kata
resolving mid-flight, and the collaborator fulfilling with a concrete
result. -/
theorem C9_run_not_staleness_checked_witness :
    (step (step initWorkspace .runClick)
        (.kataResolved (some ⟨"a", "t", "d", some "bk", some "ck", "e", "i"⟩))).running
      = true ∧
    (step (step (step initWorkspace .runClick)
        (.kataResolved (some ⟨"a", "t", "d", some "bk", some "ck", "e", "i"⟩)))
        (.runReturn (.ok ⟨"6", "", true, 12⟩))).result
      = some (settleResult (.ok ⟨"6", "", true, 12⟩)) ∧
    (step (step (step initWorkspace .runClick)
        (.kataResolved (some ⟨"a", "t", "d", some "bk", some "ck", "e", "i"⟩)))
        (.runReturn (.ok ⟨"6", "", true, 12⟩))).running
      = false :=
  C9_run_not_staleness_checked initWorkspace
    (some ⟨"a", "t", "d", some "bk", some "ck", "e", "i"⟩)
    (.ok ⟨"6", "", true, 12⟩) rfl rfl

/-- C7: after every update along any event trace from the initial workspace,
the split ratio stays within `[0.2, 0.8]` inclusive: every drag-move either
leaves it unchanged or stores the clamp of the freshly computed fractional
pointer position, and an out-of-bounds ratio is clamped rather than raised
(the handlers are total functions). -/
theorem C7_splitRatio_bounded (evs : List WsEvent) (st : WorkspaceState)
    (hst : st ∈ wsStates initWorkspace evs) :
    1/5 ≤ st.splitRatio ∧ st.splitRatio ≤ 4/5 :=
  wsStates_invariant (fun s => 1/5 ≤ s.splitRatio ∧ s.splitRatio ≤ 4/5)
    step_ratio_bounds evs initWorkspace (by norm_num [initWorkspace]) st hst

/-- Witness for C7: a drag that moves the pointer to 90% of the container
width; the stored ratio is clamped into bounds. -/
theorem C7_splitRatio_bounded_witness :
    1/5 ≤ (step (step initWorkspace .dragStart)
        (.dragMove true 0 100 90)).splitRatio ∧
    (step (step initWorkspace .dragStart)
        (.dragMove true 0 100 90)).splitRatio ≤ 4/5 :=
  C7_splitRatio_bounded [.dragStart, .dragMove true 0 100 90]
    (step (step initWorkspace .dragStart) (.dragMove true 0 100 90))
    (List.Mem.tail _ (List.Mem.tail _ (List.Mem.head _)))

/-- C2: (1) a `run()` issued while a run is in flight is dropped — it returns
without any effect on the state, neither queueing nor cancelling; (2) from a
non-running state, a burst of `n + 1` consecutive `run()` calls sends exactly
one request (the current code buffer) to the external collaborator; (3) along
any event trace from the initial workspace, at most one collaborator call is
outstanding at any time. -/
theorem C2_single_run_in_flight :
    (∀ s : WorkspaceState, s.running = true → step s .runClick = s) ∧
    (∀ (s : WorkspaceState) (n : Nat), s.running = false →
      (runEvents s (List.replicate (n + 1) .runClick)).sentCodes
        = s.sentCodes ++ [s.code]) ∧
    (∀ (evs : List WsEvent) (st : WorkspaceState),
      st ∈ wsStates initWorkspace evs → st.inflight ≤ 1) := by
  refine ⟨?_, ?_, ?_⟩
  · intro s hs
    simp [step, handleRunStart, hs]
  · intro s n hs
    have hstep : step s .runClick
        = { s with
              running := true, result := none, inflight := s.inflight + 1,
              sentCodes := s.sentCodes ++ [s.code] } := by
      simp [step, handleRunStart, hs]
    have hall : runEvents s (List.replicate (n + 1) .runClick)
        = step s .runClick := by
      rw [List.replicate_succ]
      show runEvents (step s .runClick) (List.replicate n .runClick) = _
      exact runEvents_replicate_runClick n _ (by rw [hstep])
    rw [hall, hstep]
  · intro evs st hst
    exact (wsStates_invariant runWF step_runWF evs initWorkspace
      ⟨by simp [initWorkspace], by simp [initWorkspace, runWF]⟩ st hst).1

/-- Witness for C2: a second `run()` right after the first is a no-op; a
burst of two `run()`s from the fresh workspace sends exactly one request;
the initial state has no outstanding call. -/
theorem C2_single_run_in_flight_witness :
    step (step initWorkspace .runClick) .runClick = step initWorkspace .runClick ∧
    (runEvents initWorkspace (List.replicate 2 .runClick)).sentCodes
        = initWorkspace.sentCodes ++ [initWorkspace.code] ∧
    initWorkspace.inflight ≤ 1 :=
  ⟨C2_single_run_in_flight.1 _ rfl,
   C2_single_run_in_flight.2.1 initWorkspace 1 rfl,
   C2_single_run_in_flight.2.2 [] initWorkspace (List.Mem.head _)⟩

/-- C6 counterexample: for the empty id, `selectKata` sets
`currentKataId := some ""` and writes the fragment `#/katas/`, which the
hashchange handler parses back to `null` (`(.+)` requires at least one
character); `null ≠ ""`, so the handler performs a second update of
`currentKataId` — the notification is not a no-op. -/
theorem C6_counterexample :
    selectKataNotified [] ⟨[], none⟩ ≠ selectKata [] ⟨[], none⟩ ∧
    (selectKataNotified [] ⟨[], none⟩).currentKataId ≠ some [] := by
  decide

/-- C6 amended: for every id that is nonempty and free of JS line
terminators (so that the regex `^#\/katas\/(.+)$` recovers it exactly),
`selectKata(id)` sets `currentKataId := id`, rewrites the fragment to
`#/katas/<id>`, and the fragment-change notification this rewrite triggers
is a no-op: it parses the fragment to the current id, so it neither updates
`currentKataId` a second time nor rewrites the fragment. -/
theorem C6_selectKata_no_feedback (id : List Char) (s : RouteState)
    (hne : id ≠ []) (hdot : id.all isRegexDot = true) :
    (selectKata id s).currentKataId = some id ∧
    (selectKata id s).hash = hashFor id ∧
    onHashChange (selectKata id s) = selectKata id s ∧
    selectKataNotified id s = selectKata id s := by
  have hparse : getKataIdFromHash (hashFor id) = some id := by
    simp [getKataIdFromHash, hashFor, List.isEmpty_iff, hne, hdot]
  have hnoop : onHashChange (selectKata id s) = selectKata id s := by
    unfold onHashChange selectKata
    simp [hparse]
  refine ⟨rfl, rfl, hnoop, ?_⟩
  by_cases hh : (selectKata id s).hash = s.hash
  · simp [selectKataNotified, hh]
  · simp [selectKataNotified, hh, hnoop]

/-- Witness for C6 at id `"xyz"` from a state with no fragment and no
selection. -/
theorem C6_selectKata_no_feedback_witness :
    (selectKata ['x', 'y', 'z'] ⟨[], none⟩).currentKataId = some ['x', 'y', 'z'] ∧
    (selectKata ['x', 'y', 'z'] ⟨[], none⟩).hash = hashFor ['x', 'y', 'z'] ∧
    onHashChange (selectKata ['x', 'y', 'z'] ⟨[], none⟩)
      = selectKata ['x', 'y', 'z'] ⟨[], none⟩ ∧
    selectKataNotified ['x', 'y', 'z'] ⟨[], none⟩
      = selectKata ['x', 'y', 'z'] ⟨[], none⟩ :=
  C6_selectKata_no_feedback ['x', 'y', 'z'] ⟨[], none⟩ (by decide) (by decide)

/-- C1 (detail-fetch race): selecting `k1` then `k2`, with `k2`'s fetch
resolving before `k1`'s, stores `k2`'s detail; no state along the trace ever
holds `k1`'s detail; and in general a resolution whose requested id no
longer equals `currentKataId` leaves the resource state unchanged — the
stale result is discarded silently. -/
theorem C1_stale_fetch_discarded (k1 k2 : String) (d1 d2 : KataDetail)
    (hne : k1 ≠ k2) (hid1 : d1.id = k1) (hid2 : d2.id = k2) :
    (resourceRun resourceInit
        [.select k1, .select k2, .resolve k2 d2, .resolve k1 d1]).detail
      = some d2 ∧
    (∀ st ∈ resourceStates resourceInit
        [.select k1, .select k2, .resolve k2 d2, .resolve k1 d1],
      st.detail ≠ some d1) ∧
    (∀ (s : ResourceState) (rid : String) (d : KataDetail),
      s.currentKataId ≠ some rid → resourceStep s (.resolve rid d) = s) := by
  have hd : d2 ≠ d1 := by
    intro h
    exact hne (by rw [← hid1, ← hid2, h])
  refine ⟨?_, ?_, ?_⟩
  · simp [resourceRun, resourceStep, resourceInit, Ne.symm hne]
  · intro st hst
    simp only [resourceStates, List.mem_cons, List.not_mem_nil, or_false] at hst
    rcases hst with rfl | rfl | rfl | rfl | rfl <;>
      simp [resourceStep, resourceInit, Ne.symm hne, hd]
  · intro s rid d h
    simp [resourceStep, h]

/-- Witness for C1 with ids `"a"`, `"b"` and details carrying those ids. -/
theorem C1_stale_fetch_discarded_witness :
    (resourceRun resourceInit
        [.select "a", .select "b",
         .resolve "b" ⟨"b", "", "", none, none, "", ""⟩,
         .resolve "a" ⟨"a", "", "", none, none, "", ""⟩]).detail
      = some ⟨"b", "", "", none, none, "", ""⟩ :=
  (C1_stale_fetch_discarded "a" "b"
    ⟨"a", "", "", none, none, "", ""⟩ ⟨"b", "", "", none, none, "", ""⟩
    (by decide) rfl rfl).1

end RustKatas
